import Mathlib

/-!
Shallow embedding of `ggml-bitnet-cuda.cpp` (BitNet CUDA kernel dynamic
loader and dispatch gate for llama.cpp).

The C file keeps four process-wide globals
(`g_bitnet_lib`, `g_bitlinear_kernel`, `g_bitnet_initialized`,
`g_bitnet_available`) and exposes five operations:
`ggml_bitnet_cuda_init`, `ggml_bitnet_cuda_free`,
`ggml_bitnet_cuda_is_available`, `ggml_bitnet_cuda_compute`,
`ggml_should_use_bitnet_cuda` (with helper `ggml_is_bitnet_model`).

We model the globals as an explicit `State` record threaded through the
operations, and the operating system facilities (dynamic library loading,
symbol resolution, and the loaded kernel itself) as an `Env` of abstract
functions.  Library handles and function pointers are modelled as natural
numbers, with `Option` encoding NULL.  The non-Windows (`#else`) branch of
the platform conditional is embedded; the claims are platform-independent
(both branches try the plain library name first and then exactly one
platform-specific fallback relative path).

`ggml_bitnet_cuda_init` additionally returns the number of `LOAD_LIBRARY`
(`dlopen`) calls it performed, so that memoization ("the load/probe logic
runs at most once") is directly observable.  `ggml_bitnet_cuda_compute`
returns `none` exactly when the C code would invoke a NULL function
pointer, and otherwise returns the result flag, the post-state, the new
contents of caller-visible memory, and the list of kernel invocations
(each recording the nine forwarded arguments in order).
-/

namespace BitnetCuda

/-- Dynamic library handle (`LIBHANDLE`); `Option` models NULL. -/
abbrev Handle := Nat

/-- Resolved function pointer (`bitlinear_int8xint2_func`); `Option` models NULL. -/
abbrev FuncPtr := Nat

/-- Caller-visible buffer memory. `ggml_bitnet_cuda_compute` itself never
touches it; only a delegated kernel call may rewrite it. -/
abbrev Mem := List Nat

/-- The nine arguments of one kernel invocation, in the order of the C
signature `bitlinear_int8xint2_func(input0, input1, output0, s, ws, M, N, K,
stream)`.  Pointer arguments are modelled as their numeric pointer values. -/
structure KernelArgs where
  input : Nat
  weight : Nat
  output : Nat
  scale : Nat
  weight_scale : Nat
  M : Int
  N : Int
  K : Int
  stream : Nat
deriving DecidableEq

/-- The environment: what the operating system and the loaded module do.
`loadLibrary` is `LOAD_LIBRARY` (`dlopen`), `getProcAddress` is
`GET_PROC_ADDRESS` (`dlsym`), and `kernelRun` is the behaviour of the
external kernel at a given function pointer: it may rewrite caller-visible
memory (it writes the output buffer). -/
structure Env where
  loadLibrary : String → Option Handle
  getProcAddress : Handle → String → Option FuncPtr
  kernelRun : FuncPtr → KernelArgs → Mem → Mem

/-- The four process-wide globals of `ggml-bitnet-cuda.cpp` (lines 54-57). -/
structure State where
  g_bitnet_lib : Option Handle
  g_bitlinear_kernel : Option FuncPtr
  g_bitnet_initialized : Bool
  g_bitnet_available : Bool
deriving DecidableEq

/-- Initial values of the globals: all NULL / false. -/
def initState : State :=
  { g_bitnet_lib := none
    g_bitlinear_kernel := none
    g_bitnet_initialized := false
    g_bitnet_available := false }

/-- `BITNET_LIB_NAME` on the non-Windows branch. -/
def BITNET_LIB_NAME : String := "libbitnet.so"

/-- The single platform-specific fallback path tried when the plain library
name fails to load (non-Windows branch, line 79). -/
def BITNET_FALLBACK : String := "./libs/linux/bitnet-kernel/libbitnet.so"

/-- Name of the single required exported symbol (line 90). -/
def BITNET_SYMBOL : String := "bitlinear_int8xint2"

/-- Embedding of `ggml_bitnet_cuda_init` (lines 63-102).  Returns the C
return value, the post-state, and the number of `LOAD_LIBRARY` calls
performed (0 on the memoized path; 1 when the plain name loads; 2 when the
fallback path is also tried). -/
def ggml_bitnet_cuda_init (env : Env) (s : State) : Bool × State × Nat :=
  if s.g_bitnet_initialized then
    (s.g_bitnet_available, s, 0)
  else
    let s1 : State := { s with g_bitnet_initialized := true }
    let loaded : Option Handle × Nat :=
      match env.loadLibrary BITNET_LIB_NAME with
      | some h => (some h, 1)
      | none => (env.loadLibrary BITNET_FALLBACK, 2)
    match loaded.1 with
    | none =>
      (false, { s1 with g_bitnet_lib := none }, loaded.2)
    | some h =>
      match env.getProcAddress h BITNET_SYMBOL with
      | none =>
        (false, { s1 with g_bitnet_lib := none, g_bitlinear_kernel := none }, loaded.2)
      | some f =>
        (true, { s1 with
                  g_bitnet_lib := some h
                  g_bitlinear_kernel := some f
                  g_bitnet_available := true }, loaded.2)

/-- Embedding of `ggml_bitnet_cuda_free` (lines 104-112). -/
def ggml_bitnet_cuda_free (s : State) : State :=
  let s1 : State :=
    if s.g_bitnet_lib.isSome then
      { s with g_bitnet_lib := none, g_bitlinear_kernel := none }
    else s
  { s1 with g_bitnet_initialized := false, g_bitnet_available := false }

/-- Embedding of `ggml_bitnet_cuda_is_available` (lines 114-119): lazily
triggers initialization, then returns `g_bitnet_available`.  Also reports
the post-state and the number of `LOAD_LIBRARY` calls. -/
def ggml_bitnet_cuda_is_available (env : Env) (s : State) : Bool × State × Nat :=
  if s.g_bitnet_initialized then
    (s.g_bitnet_available, s, 0)
  else
    let r := ggml_bitnet_cuda_init env s
    (r.2.1.g_bitnet_available, r.2.1, r.2.2)

/-- Embedding of `ggml_bitnet_cuda_compute` (lines 125-154).  `none` means
the C code reached the call `g_bitlinear_kernel(...)` with a NULL function
pointer (undefined behaviour).  Otherwise the result carries the returned
flag, the post-state of the globals, the caller-visible memory after the
call, and the list of kernel invocations performed, each recording the nine
arguments exactly as forwarded. -/
def ggml_bitnet_cuda_compute (env : Env) (s : State) (a : KernelArgs) (mem : Mem) :
    Option (Bool × State × Mem × List KernelArgs) :=
  let avail := ggml_bitnet_cuda_is_available env s
  if avail.1 then
    match avail.2.1.g_bitlinear_kernel with
    | none => none
    | some f => some (true, avail.2.1, env.kernelRun f a mem, [a])
  else
    some (false, avail.2.1, mem, [])

/-- Opaque tensor descriptor (`struct ggml_tensor`); the code never reads
any field of it.  `Option` models a possibly-NULL pointer. -/
structure GgmlTensor where
  id : Nat
deriving DecidableEq

/-- Embedding of `ggml_is_bitnet_model` (lines 160-172): a NULL tensor
yields false; otherwise the placeholder classifier returns false. -/
def ggml_is_bitnet_model (tensor : Option GgmlTensor) : Bool :=
  match tensor with
  | none => false
  | some _ => false

/-- Embedding of `ggml_should_use_bitnet_cuda` (lines 174-189).  Returns
the C return value and the post-state (the availability query may lazily
run initialization). -/
def ggml_should_use_bitnet_cuda (env : Env) (s : State) (tensor : Option GgmlTensor) :
    Bool × State :=
  let avail := ggml_bitnet_cuda_is_available env s
  if !avail.1 then
    (false, avail.2.1)
  else if !ggml_is_bitnet_model tensor then
    (false, avail.2.1)
  else
    (true, avail.2.1)

/-- One caller-visible operation of the module. -/
inductive Op where
  | opInit
  | opFree
  | opIsAvailable
  | opCompute (a : KernelArgs)
  | opShouldUse (t : Option GgmlTensor)
deriving DecidableEq

/-- Effect of one operation on the globals (computed buffers are separate
from the globals, so `opCompute` changes the state exactly as the
availability query it performs does). -/
def step (env : Env) (s : State) : Op → State
  | Op.opInit => (ggml_bitnet_cuda_init env s).2.1
  | Op.opFree => ggml_bitnet_cuda_free s
  | Op.opIsAvailable => (ggml_bitnet_cuda_is_available env s).2.1
  | Op.opCompute _ => (ggml_bitnet_cuda_is_available env s).2.1
  | Op.opShouldUse t => (ggml_should_use_bitnet_cuda env s t).2

/-- States of the globals reachable from process start by any sequence of
operations; the environment may differ from call to call (the filesystem
can change between probes). -/
inductive Reachable : State → Prop where
  | start : Reachable initState
  | step (env : Env) (op : Op) {s : State} : Reachable s → Reachable (step env s op)

/-- Run a list of operations from a state. -/
def run (env : Env) (s : State) : List Op → State
  | [] => s
  | op :: ops => run env (step env s op) ops

/-- Number of `LOAD_LIBRARY` calls performed by one operation. -/
def stepProbes (env : Env) (s : State) : Op → Nat
  | Op.opInit => (ggml_bitnet_cuda_init env s).2.2
  | Op.opFree => 0
  | Op.opIsAvailable => (ggml_bitnet_cuda_is_available env s).2.2
  | Op.opCompute _ => (ggml_bitnet_cuda_is_available env s).2.2
  | Op.opShouldUse _ => (ggml_bitnet_cuda_is_available env s).2.2

/-- Total number of `LOAD_LIBRARY` calls over a run. -/
def runProbes (env : Env) (s : State) : List Op → Nat
  | [] => 0
  | op :: ops => stepProbes env s op + runProbes env (step env s op) ops

/-- The state invariant relating the four globals: an uninitialized state
holds no handle, no function pointer and no availability; availability
implies both the function pointer and the handle are bound; and a bound
function pointer implies a loaded module handle. -/
def Inv (s : State) : Prop :=
  (s.g_bitnet_initialized = false →
      s.g_bitnet_lib = none ∧ s.g_bitlinear_kernel = none ∧ s.g_bitnet_available = false) ∧
  (s.g_bitnet_available = true →
      s.g_bitlinear_kernel.isSome = true ∧ s.g_bitnet_lib.isSome = true) ∧
  (s.g_bitlinear_kernel.isSome = true → s.g_bitnet_lib.isSome = true)

instance (s : State) : Decidable (Inv s) := by
  unfold Inv
  infer_instance

/-- Environment with no loadable module at any path. -/
def envEmpty : Env :=
  { loadLibrary := fun _ => none
    getProcAddress := fun _ _ => none
    kernelRun := fun _ _ mem => mem }

/-- Environment with a stub module present (every candidate path loads,
handle 1) exposing the required symbol at pointer 7; its kernel writes a
fixed pattern to memory. -/
def envStub : Env :=
  { loadLibrary := fun _ => some 1
    getProcAddress := fun _ _ => some 7
    kernelRun := fun _ _ _ => [9, 9, 9] }

/-- Environment with a module present (handle 2) that lacks the required
symbol. -/
def envNoSym : Env :=
  { loadLibrary := fun _ => some 2
    getProcAddress := fun _ _ => none
    kernelRun := fun _ _ mem => mem }

/-- Sample argument record for witnesses. -/
def argsEx : KernelArgs :=
  { input := 10, weight := 11, output := 12, scale := 13, weight_scale := 14
    M := 2, N := 4, K := 8, stream := 15 }

end BitnetCuda

namespace BitnetCuda

/-- Helper: `ggml_bitnet_cuda_init` preserves the state invariant. -/
theorem inv_init (env : Env) (s : State) (h : Inv s) :
    Inv (ggml_bitnet_cuda_init env s).2.1 := by
  by_cases hi : s.g_bitnet_initialized = true
  · simpa [ggml_bitnet_cuda_init, hi] using h
  · obtain ⟨hnone, -, -⟩ := h
    obtain ⟨hl, hk, ha⟩ := hnone (by simpa using hi)
    unfold ggml_bitnet_cuda_init
    rw [if_neg hi]
    rcases hL : env.loadLibrary BITNET_LIB_NAME with _ | h
    · rcases hF : env.loadLibrary BITNET_FALLBACK with _ | h
      · simp [hL, hF, Inv, ha, hk]
      · rcases hS : env.getProcAddress h BITNET_SYMBOL with _ | f
        · simp [hL, hF, hS, Inv, ha, hk]
        · simp [hL, hF, hS, Inv]
    · rcases hS : env.getProcAddress h BITNET_SYMBOL with _ | f
      · simp [hL, hS, Inv, ha, hk]
      · simp [hL, hS, Inv]

/-- Helper: `ggml_bitnet_cuda_free` preserves the state invariant. -/
theorem inv_free (s : State) (h : Inv s) : Inv (ggml_bitnet_cuda_free s) := by
  obtain ⟨-, -, h3⟩ := h
  unfold ggml_bitnet_cuda_free
  by_cases hs : s.g_bitnet_lib.isSome = true
  · simp [hs, Inv]
  · have hk : s.g_bitlinear_kernel = none := by
      cases hke : s.g_bitlinear_kernel with
      | none => rfl
      | some f => exact absurd (h3 (by simp [hke])) hs
    have hl : s.g_bitnet_lib = none := Option.not_isSome_iff_eq_none.mp hs
    simp [hs, Inv, hk, hl]

/-- Helper: `ggml_bitnet_cuda_is_available` computes through
`ggml_bitnet_cuda_init` and reads the recorded flag from the post-state. -/
theorem isAvailable_spec (env : Env) (s : State) :
    ggml_bitnet_cuda_is_available env s =
      ((ggml_bitnet_cuda_init env s).2.1.g_bitnet_available,
       (ggml_bitnet_cuda_init env s).2.1,
       (ggml_bitnet_cuda_init env s).2.2) := by
  unfold ggml_bitnet_cuda_is_available ggml_bitnet_cuda_init
  by_cases hi : s.g_bitnet_initialized = true
  · simp [hi]
  · simp [hi]

/-- Helper: the flag returned by the availability query equals the
`g_bitnet_available` field of its post-state. -/
theorem isAvailable_flag (env : Env) (s : State) :
    (ggml_bitnet_cuda_is_available env s).1 =
      ((ggml_bitnet_cuda_is_available env s).2.1).g_bitnet_available := by
  rw [isAvailable_spec]

/-- Helper: every operation preserves the state invariant. -/
theorem inv_step (env : Env) (s : State) (op : Op) (h : Inv s) :
    Inv (step env s op) := by
  cases op with
  | opInit => exact inv_init env s h
  | opFree => exact inv_free s h
  | opIsAvailable =>
    simpa [step, isAvailable_spec] using inv_init env s h
  | opCompute a =>
    simpa [step, isAvailable_spec] using inv_init env s h
  | opShouldUse t =>
    have h1 := inv_init env s h
    simp only [step, ggml_should_use_bitnet_cuda]
    split
    · simpa [isAvailable_spec] using h1
    · split
      · simpa [isAvailable_spec] using h1
      · simpa [isAvailable_spec] using h1

/-- Helper: every reachable state satisfies the invariant. -/
theorem reachable_inv {s : State} (h : Reachable s) : Inv s := by
  induction h with
  | start => exact ⟨fun _ => ⟨rfl, rfl, rfl⟩, fun hc => by simp [initState] at hc,
      fun hc => by simp [initState] at hc⟩
  | step env op hr ih => exact inv_step env _ op ih

/-- C9: the state invariant is preserved by every operation (init, free,
is_available, compute, should_use): a non-null `g_bitlinear_kernel`
implies a non-null `g_bitnet_lib`, availability implies both are non-null,
and an uninitialized state holds neither — the handle and the function
pointer are set together on success and cleared together on failure or
release. -/
theorem c9_invariant_preserved (env : Env) (s : State) (op : Op) (h : Inv s) :
    Inv (step env s op) :=
  inv_step env s op h

theorem c9_invariant_preserved_witness :
    Inv initState ∧ Inv (step envEmpty initState Op.opFree) :=
  ⟨by decide, c9_invariant_preserved envEmpty initState Op.opFree (by decide)⟩

end BitnetCuda

namespace BitnetCuda

/-- Sample initialized-and-available state for witnesses. -/
def sLoaded : State :=
  { g_bitnet_lib := some 1
    g_bitlinear_kernel := some 7
    g_bitnet_initialized := true
    g_bitnet_available := true }

/-- Sample operation list without a release for witnesses. -/
def opsEx : List Op := [Op.opInit, Op.opIsAvailable, Op.opCompute argsEx]

/-- Helper: after `ggml_bitnet_cuda_init` the initialized flag is set. -/
theorem init_post_flag (env : Env) (s : State) :
    ((ggml_bitnet_cuda_init env s).2.1).g_bitnet_initialized = true := by
  unfold ggml_bitnet_cuda_init
  by_cases hi : s.g_bitnet_initialized = true
  · simp [hi]
  · rw [if_neg hi]
    rcases hL : env.loadLibrary BITNET_LIB_NAME with _ | h
    · rcases hF : env.loadLibrary BITNET_FALLBACK with _ | h
      · simp [hL, hF]
      · rcases hS : env.getProcAddress h BITNET_SYMBOL with _ | f <;> simp [hL, hF, hS]
    · rcases hS : env.getProcAddress h BITNET_SYMBOL with _ | f <;> simp [hL, hS]

/-- Helper: on an initialized state every operation except release leaves
the globals unchanged and performs no library probe. -/
theorem step_id (env : Env) (s : State) (op : Op)
    (hs : s.g_bitnet_initialized = true) (hop : op ≠ Op.opFree) :
    step env s op = s ∧ stepProbes env s op = 0 := by
  cases op with
  | opInit => simp [step, stepProbes, ggml_bitnet_cuda_init, hs]
  | opFree => exact absurd rfl hop
  | opIsAvailable => simp [step, stepProbes, ggml_bitnet_cuda_is_available, hs]
  | opCompute a => simp [step, stepProbes, ggml_bitnet_cuda_is_available, hs]
  | opShouldUse t =>
    cases hb : s.g_bitnet_available <;> cases t <;>
      simp [step, stepProbes, ggml_should_use_bitnet_cuda,
        ggml_bitnet_cuda_is_available, hs, hb, ggml_is_bitnet_model]

/-- Helper: a release-free run from an initialized state changes nothing
and performs no library probe. -/
theorem run_id (env : Env) (s : State) (ops : List Op)
    (hs : s.g_bitnet_initialized = true) (hops : Op.opFree ∉ ops) :
    run env s ops = s ∧ runProbes env s ops = 0 := by
  induction ops with
  | nil => simp [run, runProbes]
  | cons op rest ih =>
    have hop : op ≠ Op.opFree := by
      intro he
      exact hops (by rw [he]; exact List.mem_cons_self _ _)
    obtain ⟨h1, h2⟩ := step_id env s op hs hop
    have hrest : Op.opFree ∉ rest := fun hm => hops (List.mem_cons_of_mem op hm)
    obtain ⟨h3, h4⟩ := ih hrest
    refine ⟨?_, ?_⟩
    · show run env (step env s op) rest = s
      rw [h1]; exact h3
    · show stepProbes env s op + runProbes env (step env s op) rest = 0
      rw [h1, h2, h4]

/-- C1: `ggml_bitnet_cuda_compute` never invokes an unbound function
pointer: from every reachable state, when the availability check passes the
global kernel pointer is non-null (the NULL-dereference branch, modelled as
`none`, is unreachable), and when availability is false the kernel pointer
is never invoked (no kernel call is recorded and memory is untouched). -/
theorem c1_no_unbound_invocation (env : Env) (s : State) (a : KernelArgs) (mem : Mem)
    (h : Reachable s) :
    ggml_bitnet_cuda_compute env s a mem ≠ none ∧
    ((ggml_bitnet_cuda_is_available env s).1 = false →
      ggml_bitnet_cuda_compute env s a mem =
        some (false, (ggml_bitnet_cuda_is_available env s).2.1, mem, [])) := by
  have hinv : Inv (ggml_bitnet_cuda_is_available env s).2.1 := by
    have hstep := reachable_inv (Reachable.step env Op.opIsAvailable h)
    simpa [step] using hstep
  by_cases hr : (ggml_bitnet_cuda_is_available env s).1 = true
  · have hav : ((ggml_bitnet_cuda_is_available env s).2.1).g_bitnet_available = true := by
      rw [← isAvailable_flag]; exact hr
    obtain ⟨-, hcon, -⟩ := hinv
    obtain ⟨hkk, -⟩ := hcon hav
    obtain ⟨f, hf⟩ := Option.isSome_iff_exists.mp hkk
    refine ⟨by simp [ggml_bitnet_cuda_compute, hr, hf], fun hfalse => ?_⟩
    rw [hr] at hfalse
    cases hfalse
  · have hr2 : (ggml_bitnet_cuda_is_available env s).1 = false := by
      simpa using hr
    exact ⟨by simp [ggml_bitnet_cuda_compute, hr2],
      fun _ => by simp [ggml_bitnet_cuda_compute, hr2]⟩

theorem c1_no_unbound_invocation_witness :
    ggml_bitnet_cuda_compute envEmpty initState argsEx [] ≠ none ∧
    ((ggml_bitnet_cuda_is_available envEmpty initState).1 = false →
      ggml_bitnet_cuda_compute envEmpty initState argsEx [] =
        some (false, (ggml_bitnet_cuda_is_available envEmpty initState).2.1, [], [])) :=
  c1_no_unbound_invocation envEmpty initState argsEx [] Reachable.start

/-- C3: initialization is memoized: on an initialized state `init` and
`is_available` return the recorded flag with no state change and zero
library probes; any release-free run from an initialized state changes
nothing and performs zero probes; and the first call (lazily triggering
initialization) drives any state into the initialized regime. -/
theorem c3_memoized (env : Env) (s : State) (ops : List Op)
    (hs : s.g_bitnet_initialized = true) (hops : Op.opFree ∉ ops) :
    ggml_bitnet_cuda_init env s = (s.g_bitnet_available, s, 0) ∧
    ggml_bitnet_cuda_is_available env s = (s.g_bitnet_available, s, 0) ∧
    run env s ops = s ∧
    runProbes env s ops = 0 ∧
    (∀ e : Env, ∀ s0 : State,
      ((ggml_bitnet_cuda_init e s0).2.1).g_bitnet_initialized = true ∧
      ((ggml_bitnet_cuda_is_available e s0).2.1).g_bitnet_initialized = true) :=
  ⟨by simp [ggml_bitnet_cuda_init, hs],
   by simp [ggml_bitnet_cuda_is_available, hs],
   (run_id env s ops hs hops).1,
   (run_id env s ops hs hops).2,
   fun e s0 => ⟨init_post_flag e s0, by rw [isAvailable_spec]; exact init_post_flag e s0⟩⟩

theorem c3_memoized_witness :
    sLoaded.g_bitnet_initialized = true ∧ Op.opFree ∉ opsEx ∧
    ggml_bitnet_cuda_init envStub sLoaded = (sLoaded.g_bitnet_available, sLoaded, 0) ∧
    run envStub sLoaded opsEx = sLoaded ∧ runProbes envStub sLoaded opsEx = 0 :=
  ⟨by decide, by decide,
   (c3_memoized envStub sLoaded opsEx (by decide) (by decide)).1,
   (c3_memoized envStub sLoaded opsEx (by decide) (by decide)).2.2.1,
   (c3_memoized envStub sLoaded opsEx (by decide) (by decide)).2.2.2.1⟩

end BitnetCuda

namespace BitnetCuda

/-- C2: on an uninitialized state, `ggml_bitnet_cuda_init` returns true if
and only if some candidate location loads (the plain library name first,
else exactly one platform-specific fallback relative path) and the required
symbol `bitlinear_int8xint2` resolves on the loaded handle; every other
outcome is recorded as failure (the availability flag equals the returned
value) and the state becomes initialized. -/
theorem c2_init_iff (env : Env) (s : State)
    (h1 : s.g_bitnet_initialized = false) (h2 : s.g_bitnet_available = false) :
    ((ggml_bitnet_cuda_init env s).1 = true ↔
      ∃ hdl : Handle,
        (env.loadLibrary BITNET_LIB_NAME = some hdl ∨
          (env.loadLibrary BITNET_LIB_NAME = none ∧
            env.loadLibrary BITNET_FALLBACK = some hdl)) ∧
        (env.getProcAddress hdl BITNET_SYMBOL).isSome = true) ∧
    ((ggml_bitnet_cuda_init env s).2.1).g_bitnet_available =
      (ggml_bitnet_cuda_init env s).1 ∧
    ((ggml_bitnet_cuda_init env s).2.1).g_bitnet_initialized = true := by
  have hi : ¬ s.g_bitnet_initialized = true := by simp [h1]
  unfold ggml_bitnet_cuda_init
  rw [if_neg hi]
  rcases hL : env.loadLibrary BITNET_LIB_NAME with _ | h
  · rcases hF : env.loadLibrary BITNET_FALLBACK with _ | h
    · simp [hL, hF, h2]
    · rcases hS : env.getProcAddress h BITNET_SYMBOL with _ | f
      · simp [hL, hF, hS, h2]
      · simp [hL, hF, hS]
  · rcases hS : env.getProcAddress h BITNET_SYMBOL with _ | f
    · simp [hL, hS, h2]
    · simp [hL, hS]

theorem c2_init_iff_witness :
    (ggml_bitnet_cuda_init envStub initState).1 = true ∧
    (ggml_bitnet_cuda_init envNoSym initState).1 = false :=
  ⟨((c2_init_iff envStub initState rfl rfl).1).mpr ⟨1, Or.inl rfl, rfl⟩,
   by
    have hiff := (c2_init_iff envNoSym initState rfl rfl).1
    cases hv : (ggml_bitnet_cuda_init envNoSym initState).1 with
    | false => rfl
    | true =>
      obtain ⟨hdl, -, hsym⟩ := hiff.mp hv
      simp [envNoSym] at hsym⟩

/-- C4: when no module is present at any candidate path, the availability
query on a fresh (uninitialized, unavailable) state returns false and
`ggml_bitnet_cuda_compute` returns false with the caller-supplied memory
byte-unchanged and no kernel invocation recorded. -/
theorem c4_absent_module (env : Env) (s : State) (a : KernelArgs) (mem : Mem)
    (h1 : env.loadLibrary BITNET_LIB_NAME = none)
    (h2 : env.loadLibrary BITNET_FALLBACK = none)
    (h3 : s.g_bitnet_initialized = false) (h4 : s.g_bitnet_available = false) :
    (ggml_bitnet_cuda_is_available env s).1 = false ∧
    ggml_bitnet_cuda_compute env s a mem =
      some (false, (ggml_bitnet_cuda_is_available env s).2.1, mem, []) := by
  have hi : ¬ s.g_bitnet_initialized = true := by simp [h3]
  have havail : (ggml_bitnet_cuda_is_available env s).1 = false := by
    rw [isAvailable_spec]
    unfold ggml_bitnet_cuda_init
    rw [if_neg hi]
    simp [h1, h2, h4]
  exact ⟨havail, by simp [ggml_bitnet_cuda_compute, havail]⟩

theorem c4_absent_module_witness :
    (ggml_bitnet_cuda_is_available envEmpty initState).1 = false ∧
    ggml_bitnet_cuda_compute envEmpty initState argsEx [5, 6] =
      some (false, (ggml_bitnet_cuda_is_available envEmpty initState).2.1, [5, 6], []) :=
  c4_absent_module envEmpty initState argsEx [5, 6] rfl rfl rfl rfl

/-- C5: pass-through fidelity: from a reachable state, when the
availability check passes, `ggml_bitnet_cuda_compute` returns true and
performs exactly one kernel invocation recording the nine arguments
unchanged and in order; the only effect on caller-visible memory is the
delegated call itself. -/
theorem c5_pass_through (env : Env) (s : State) (a : KernelArgs) (mem : Mem)
    (hreach : Reachable s)
    (havail : (ggml_bitnet_cuda_is_available env s).1 = true) :
    ∃ f : FuncPtr,
      ((ggml_bitnet_cuda_is_available env s).2.1).g_bitlinear_kernel = some f ∧
      ggml_bitnet_cuda_compute env s a mem =
        some (true, (ggml_bitnet_cuda_is_available env s).2.1,
          env.kernelRun f a mem, [a]) := by
  have hinv : Inv (ggml_bitnet_cuda_is_available env s).2.1 := by
    have hstep := reachable_inv (Reachable.step env Op.opIsAvailable hreach)
    simpa [step] using hstep
  have hav : ((ggml_bitnet_cuda_is_available env s).2.1).g_bitnet_available = true := by
    rw [← isAvailable_flag]; exact havail
  obtain ⟨-, hcon, -⟩ := hinv
  obtain ⟨hkk, -⟩ := hcon hav
  obtain ⟨f, hf⟩ := Option.isSome_iff_exists.mp hkk
  exact ⟨f, hf, by simp [ggml_bitnet_cuda_compute, havail, hf]⟩

theorem c5_pass_through_witness :
    ((ggml_bitnet_cuda_is_available envStub initState).2.1).g_bitlinear_kernel = some 7 ∧
    ggml_bitnet_cuda_compute envStub initState argsEx [0, 0] =
      some (true, (ggml_bitnet_cuda_is_available envStub initState).2.1,
        [9, 9, 9], [argsEx]) := by
  obtain ⟨f, hf, hc⟩ :=
    c5_pass_through envStub initState argsEx [0, 0] Reachable.start (by decide)
  have hx : ((ggml_bitnet_cuda_is_available envStub initState).2.1).g_bitlinear_kernel
      = some 7 := by decide
  have h7 : f = 7 := by
    rw [hf] at hx
    exact Option.some_inj.mp hx
  subst h7
  exact ⟨hf, by simpa [envStub] using hc⟩

end BitnetCuda

namespace BitnetCuda

/-- C6: on symbol-resolution failure (a module loads at a candidate
location but `bitlinear_int8xint2` does not resolve), `ggml_bitnet_cuda_init`
returns false and leaves the module handle and the function pointer both
null (the module is unloaded immediately, no partially-bound state is
retained), with the state marked initialized and unavailable. -/
theorem c6_symbol_failure_unloads (env : Env) (s : State) (hdl : Handle)
    (h1 : s.g_bitnet_initialized = false) (h2 : s.g_bitnet_available = false)
    (hload : env.loadLibrary BITNET_LIB_NAME = some hdl ∨
      (env.loadLibrary BITNET_LIB_NAME = none ∧
        env.loadLibrary BITNET_FALLBACK = some hdl))
    (hsym : env.getProcAddress hdl BITNET_SYMBOL = none) :
    (ggml_bitnet_cuda_init env s).1 = false ∧
    (ggml_bitnet_cuda_init env s).2.1 =
      { g_bitnet_lib := none
        g_bitlinear_kernel := none
        g_bitnet_initialized := true
        g_bitnet_available := false } := by
  have hi : ¬ s.g_bitnet_initialized = true := by simp [h1]
  unfold ggml_bitnet_cuda_init
  rw [if_neg hi]
  rcases hload with hL | ⟨hL, hF⟩
  · simp [hL, hsym, h2]
  · simp [hL, hF, hsym, h2]

theorem c6_symbol_failure_unloads_witness :
    (ggml_bitnet_cuda_init envNoSym initState).1 = false ∧
    (ggml_bitnet_cuda_init envNoSym initState).2.1 =
      { g_bitnet_lib := none
        g_bitlinear_kernel := none
        g_bitnet_initialized := true
        g_bitnet_available := false } :=
  c6_symbol_failure_unloads envNoSym initState 2 rfl rfl (Or.inl rfl) rfl

/-- C7: `ggml_bitnet_cuda_free` unbinds the function pointer and unloads
the module, resetting the globals to the uninitialized, unavailable start
state; it is idempotent; and a subsequent `ggml_bitnet_cuda_init`
re-attempts the probe sequence (it performs at least one library load
call again).  The hypothesis is the reachable-state fact that a bound
function pointer implies a loaded handle. -/
theorem c7_free_resets (s : State)
    (hk : s.g_bitlinear_kernel.isSome = true → s.g_bitnet_lib.isSome = true) :
    ggml_bitnet_cuda_free s = initState ∧
    ggml_bitnet_cuda_free (ggml_bitnet_cuda_free s) = ggml_bitnet_cuda_free s ∧
    (∀ env : Env, 1 ≤ (ggml_bitnet_cuda_init env (ggml_bitnet_cuda_free s)).2.2) := by
  have hfree : ggml_bitnet_cuda_free s = initState := by
    unfold ggml_bitnet_cuda_free
    by_cases hs : s.g_bitnet_lib.isSome = true
    · simp [hs, initState]
    · have hkn : s.g_bitlinear_kernel = none := by
        cases hke : s.g_bitlinear_kernel with
        | none => rfl
        | some f => exact absurd (hk (by simp [hke])) hs
      have hln : s.g_bitnet_lib = none := Option.not_isSome_iff_eq_none.mp hs
      simp [hs, initState, hkn, hln]
  refine ⟨hfree, by rw [hfree]; decide, fun env => ?_⟩
  rw [hfree]
  unfold ggml_bitnet_cuda_init
  simp only [initState]
  rcases hL : env.loadLibrary BITNET_LIB_NAME with _ | h
  · rcases hF : env.loadLibrary BITNET_FALLBACK with _ | h
    · simp [hL, hF]
    · rcases hS : env.getProcAddress h BITNET_SYMBOL with _ | f <;> simp [hL, hF, hS]
  · rcases hS : env.getProcAddress h BITNET_SYMBOL with _ | f <;> simp [hL, hS]

theorem c7_free_resets_witness :
    ggml_bitnet_cuda_free sLoaded = initState ∧
    ggml_bitnet_cuda_free (ggml_bitnet_cuda_free sLoaded) =
      ggml_bitnet_cuda_free sLoaded ∧
    1 ≤ (ggml_bitnet_cuda_init envEmpty (ggml_bitnet_cuda_free sLoaded)).2.2 :=
  ⟨(c7_free_resets sLoaded (by decide)).1,
   (c7_free_resets sLoaded (by decide)).2.1,
   (c7_free_resets sLoaded (by decide)).2.2 envEmpty⟩

/-- C8: eligibility never defaults to true: `ggml_should_use_bitnet_cuda`
returns true only when the module is available and `ggml_is_bitnet_model`
classifies the descriptor as BitNet; the placeholder classifier has no
metadata to consult and returns false for every descriptor, so the gate
returns false for every descriptor in every state. -/
theorem c8_eligibility_never_defaults (env : Env) (s : State) (t : Option GgmlTensor) :
    ggml_is_bitnet_model t = false ∧
    (ggml_should_use_bitnet_cuda env s t).1 = false ∧
    ((ggml_should_use_bitnet_cuda env s t).1 = true →
      (ggml_bitnet_cuda_is_available env s).1 = true ∧
        ggml_is_bitnet_model t = true) := by
  have hm : ggml_is_bitnet_model t = false := by cases t <;> rfl
  have hsu : (ggml_should_use_bitnet_cuda env s t).1 = false := by
    unfold ggml_should_use_bitnet_cuda
    cases hb : (ggml_bitnet_cuda_is_available env s).1 <;> simp [hb, hm]
  exact ⟨hm, hsu, fun ht => by simp [hsu] at ht⟩

/-- C10: a NULL descriptor is classified as not-BitNet (the NULL check
returns false before any field of the tensor is read), and consequently
the dispatch gate returns false for a NULL descriptor in every
module-availability state. -/
theorem c10_null_descriptor (env : Env) (s : State) :
    ggml_is_bitnet_model none = false ∧
    (ggml_should_use_bitnet_cuda env s none).1 = false := by
  refine ⟨rfl, ?_⟩
  unfold ggml_should_use_bitnet_cuda
  cases hb : (ggml_bitnet_cuda_is_available env s).1 <;>
    simp [hb, ggml_is_bitnet_model]

end BitnetCuda
